import Mathlib

/-!
Shallow embedding of the pricing-engine core.

This file embeds the pricing calculation engine of the repository
(`src/pricing/rules.py`, `src/pricing/calculator.py`,
`src/utils/parsing.py`, `src/utils/error_handler.py`,
`src/pricing_pipeline.py`) and settles the specification claims about it.

Modelling conventions:
* Python floats are modelled by exact rationals (`ℚ`); the arithmetic in
  the engine is plain `+ - * /` on finite values, and every claim is about
  exact decimal quantities.
* Python exceptions (`raise ValueError`, `raise ParsingException`) are
  modelled with `Except String`: `Except.error msg` is a raised exception.
* A Python value that may be `None` is modelled with `Option`.
* Config dictionaries are modelled by typed structures whose optional
  fields are `Option`-valued; `dict.get(key)` returning `None` for an
  absent key becomes the `none` case.
-/

namespace PricingEngine

/-- From `src/pricing/models.py` — `DynamicPricingTier`: an occupancy band
`(min_occupancy, max_occupancy]` (percent scale) with a multiplier. -/
structure DynamicPricingTier where
  min_occupancy : ℚ
  max_occupancy : ℚ
  multiplier : ℚ
deriving DecidableEq, Repr

/-- A per-location entry of the `locations` mapping in the YAML config,
as read by `src/pricing/rules.py` via `loc_cfg.get(...)` — every field is
optional (absent key ↦ `none`). -/
structure LocCfg where
  min_price : Option ℚ := none
  max_price : Option ℚ := none
  margin_of_safety : Option ℚ := none
  target_breakeven_occupancy : Option ℚ := none
  use_smart_target : Option Bool := none
deriving DecidableEq, Repr

/-- The configuration mapping consumed by `build_rules` /
`get_target_breakeven_occupancy`: a global `margin_of_safety`, the global
`dynamic_pricing_tiers` list, and the `locations` mapping (modelled as an
association list, keys unique as in a Python dict). -/
structure Config where
  margin_of_safety : Option ℚ := none
  dynamic_pricing_tiers : List DynamicPricingTier := []
  locations : List (String × LocCfg) := []
deriving DecidableEq, Repr

/-- Embeds the nested lookup `cfg.get("locations").get(location)` with
empty-mapping defaults: find the location's entry, defaulting to the
empty override set. -/
def lookupLoc (cfg : Config) (location : String) : LocCfg :=
  match cfg.locations.find? (fun p => p.1 = location) with
  | some p => p.2
  | none => {}

/-- From `src/pricing/models.py` — `PricingRules` (resolved per location). -/
structure PricingRules where
  min_price : Option ℚ
  max_price : Option ℚ
  margin_of_safety : ℚ
  dynamic_pricing_tiers : List DynamicPricingTier
  use_smart_target : Bool
deriving DecidableEq, Repr

/-- From `src/pricing/rules.py` — `build_rules(location, cfg)`.
Raises when the location has no `use_smart_target` key; when smart targets
are enabled and a static target is present, that static target must be
positive (the `isinstance` check is subsumed by the typed config).
`margin_of_safety` falls back to the global value, then to `0.5`. -/
def build_rules (location : String) (cfg : Config) : Except String PricingRules :=
  let loc_cfg := lookupLoc cfg location
  match loc_cfg.use_smart_target with
  | none =>
      .error ("Location '" ++ location ++ "' must have 'use_smart_target' configured")
  | some ust =>
      match loc_cfg.target_breakeven_occupancy with
      | some t =>
          if ust ∧ t ≤ 0 then
            .error ("Location '" ++ location ++ "' has invalid target_breakeven_occupancy")
          else
            .ok { min_price := loc_cfg.min_price
                  max_price := loc_cfg.max_price
                  margin_of_safety :=
                    (loc_cfg.margin_of_safety.getD (cfg.margin_of_safety.getD (1/2)))
                  dynamic_pricing_tiers := cfg.dynamic_pricing_tiers
                  use_smart_target := ust }
      | none =>
          .ok { min_price := loc_cfg.min_price
                max_price := loc_cfg.max_price
                margin_of_safety :=
                  (loc_cfg.margin_of_safety.getD (cfg.margin_of_safety.getD (1/2)))
                dynamic_pricing_tiers := cfg.dynamic_pricing_tiers
                use_smart_target := ust }

/-- From `src/pricing/calculator.py` — `calculate_dynamic_improvement_pct`;
the same branch structure is inlined in
`src/pricing/rules.py::get_target_breakeven_occupancy` (lines 72–92). -/
def improvementMultiplier (breakeven_occupancy_pct current_occupancy_pct : ℚ) : ℚ :=
  if current_occupancy_pct ≥ breakeven_occupancy_pct then
    -- profitable
    if breakeven_occupancy_pct ≤ 50 then 97/100
    else if breakeven_occupancy_pct ≤ 70 then 95/100
    else 93/100
  else
    -- losing money
    let loss_gap := breakeven_occupancy_pct - current_occupancy_pct
    if loss_gap ≤ 15 then 97/100
    else if loss_gap ≤ 25 then 94/100
    else 9/10

/-- From `src/pricing/rules.py` — `get_target_breakeven_occupancy`.
Raises when `use_smart_target` is unset; with the flag truthy and both
the actual breakeven and the current occupancy supplied it returns the
smart target `(actual * multiplier, true)`; otherwise the static
`target_breakeven_occupancy` (default `70.0`) with flag `false`.  The
`try/except` around the smart branch cannot fire (pure arithmetic). -/
def get_target_breakeven_occupancy (location : String) (cfg : Config)
    (actual_breakeven_occupancy_pct : Option ℚ)
    (current_occupancy_pct : Option ℚ) : Except String (ℚ × Bool) :=
  let loc_cfg := lookupLoc cfg location
  match loc_cfg.use_smart_target with
  | none =>
      .error ("Location '" ++ location ++ "' must have 'use_smart_target' configured")
  | some ust =>
      match actual_breakeven_occupancy_pct, current_occupancy_pct with
      | some a, some c =>
          if ust then
            .ok (a * improvementMultiplier a c, true)
          else
            .ok (loc_cfg.target_breakeven_occupancy.getD 70, false)
      | _, _ =>
          .ok (loc_cfg.target_breakeven_occupancy.getD 70, false)

/-- Helper for `validate_smart_target_configuration`: walk the
`locations` items in order, raising at the first offending entry (as the
Python `for` loop does). -/
def validateLocations : List (String × LocCfg) → Except String Unit
  | [] => .ok ()
  | (name, loc_cfg) :: rest =>
      match loc_cfg.use_smart_target with
      | none =>
          .error ("Location '" ++ name ++ "' must have 'use_smart_target' configured")
      | some ust =>
          match loc_cfg.target_breakeven_occupancy with
          | some t =>
              if ust ∧ t ≤ 0 then
                .error ("Location '" ++ name ++ "' has invalid target_breakeven_occupancy")
              else validateLocations rest
          | none => validateLocations rest

/-- From `src/pricing/rules.py` — `validate_smart_target_configuration`:
walk all locations; a missing `use_smart_target` raises, and with smart
targets enabled a present static target must be positive. -/
def validate_smart_target_configuration (cfg : Config) : Except String Unit :=
  validateLocations cfg.locations

/-- From `src/pricing/models.py` — `LocationData` (the fields the calculator
reads; `published_price` is carried but unused by the calculation). -/
structure LocationData where
  name : String
  exp_total_po_expense_amount : ℚ
  avg_exp_total_po_expense_amount : ℚ
  po_seats_occupied_actual_pct : ℚ
  po_seats_occupied_pct : Option ℚ := none
  total_po_seats : ℤ
  published_price : Option ℚ := none
  sold_price_per_po_seat_actual : Option ℚ := none
deriving DecidableEq, Repr

/-- From `src/pricing/models.py` — `PricingResult` (the fields
`calculate_pricing` sets; `manual_override` and `reasoning` are the
constant `None` and are omitted). -/
structure PricingResult where
  location : String
  recommended_price : ℚ
  latest_occupancy : ℚ
  target_breakeven_occupancy_pct : ℚ
  actual_breakeven_occupancy_pct : Option ℚ
  is_losing_money : Bool
  breakeven_price : ℚ
  base_price : ℚ
  price_with_margin : ℚ
  final_price : ℚ
  losing_money : Option Bool
  dynamic_multiplier : ℚ
  is_smart_target : Bool
deriving DecidableEq, Repr

/-- From `src/utils/parsing.py` — `pct_to_decimal`. -/
def pct_to_decimal (pct : ℚ) : ℚ := pct / 100

/-- From `src/pricing/calculator.py` — `_calculate_breakeven_price`.
Raises when `total_po_seats == 0` or the target is falsy (`None` or `0`);
otherwise `avg_expense / (total_seats * (target / 100))`. -/
def calculateBreakevenPrice (d : LocationData)
    (target_breakeven_occupancy : Option ℚ) : Except String ℚ :=
  if d.total_po_seats = 0 ∨ target_breakeven_occupancy = none ∨
      target_breakeven_occupancy = some 0 then
    .error "Total PO seats and target breakeven occupancy must be greater than zero."
  else
    .ok (d.avg_exp_total_po_expense_amount /
      ((d.total_po_seats : ℚ) * pct_to_decimal (target_breakeven_occupancy.getD 0)))

/-- From `src/pricing/calculator.py` — `_apply_dynamic_multiplier`: first tier
with `min_occupancy < occupancy <= max_occupancy` wins, default `1.0`. -/
def findTierMultiplier (occupancy_pct : ℚ) : List DynamicPricingTier → ℚ
  | [] => 1
  | tier :: rest =>
      if tier.min_occupancy < occupancy_pct ∧ occupancy_pct ≤ tier.max_occupancy then
        tier.multiplier
      else findTierMultiplier occupancy_pct rest

/-- From `src/pricing/calculator.py` — `_apply_margin_of_safety`. -/
def applyMarginOfSafety (base_price margin_of_safety : ℚ) : ℚ :=
  base_price * (1 + margin_of_safety)

/-- From `src/pricing/calculator.py` — `_enforce_price_bounds`: raise to
`min_price` when set and exceeded, else lower to `max_price` when set and
exceeded, else unchanged. -/
def enforcePriceBounds (price : ℚ) (min_price max_price : Option ℚ) : ℚ :=
  match min_price with
  | some mn => if price < mn then mn else
      match max_price with
      | some mx => if price > mx then mx else price
      | none => price
  | none =>
      match max_price with
      | some mx => if price > mx then mx else price
      | none => price

/-- Python's built-in `round` on an exact value: nearest integer, ties to
even. -/
def pyRound (q : ℚ) : ℤ :=
  let f := ⌊q⌋
  let r := q - f
  if r < 1/2 then f
  else if (1:ℚ)/2 < r then f + 1
  else if f % 2 = 0 then f else f + 1

/-- From `src/pricing/calculator.py` — `_round_to_nearest` (default 50000):
`round(value / nearest) * nearest`. -/
def roundToNearest (value : ℚ) (nearest : ℤ) : ℚ :=
  (pyRound (value / nearest) : ℚ) * nearest

/-- From `src/pricing/calculator.py` — `_round_up_to_nearest`: exact multiples
are returned as-is (`value % nearest == 0`), otherwise
`ceil(value / nearest) * nearest`. -/
def roundUpToNearest (value : ℚ) (nearest : ℤ) : ℚ :=
  if value - (⌊value / nearest⌋ : ℚ) * nearest = 0 then value
  else (⌈value / nearest⌉ : ℚ) * nearest

/-- From `src/pricing/calculator.py` lines 32–48: the actual breakeven
occupancy, computed only when the sold price and the seat count are
truthy and positive: `avg_expense / (sold_price * total_seats) * 100`. -/
def actualBreakevenPct (d : LocationData) : Option ℚ :=
  match d.sold_price_per_po_seat_actual with
  | some s =>
      if s ≠ 0 ∧ d.total_po_seats ≠ 0 ∧ 0 < s ∧ 0 < d.total_po_seats then
        some (d.avg_exp_total_po_expense_amount / (s * (d.total_po_seats : ℚ)) * 100)
      else none
  | none => none

/-- From `src/pricing/calculator.py` — `PricingCalculator.calculate_pricing`:
resolve rules, compute the actual breakeven, resolve the (smart or
static) target, then run the four stages and assemble the result. -/
def calculate_pricing (cfg : Config) (d : LocationData) : Except String PricingResult :=
  match build_rules d.name cfg with
  | .error e => .error e
  | .ok rules =>
    let actual := actualBreakevenPct d
    match get_target_breakeven_occupancy d.name cfg actual
        (some d.po_seats_occupied_actual_pct) with
    | .error e => .error e
    | .ok (target, is_smart) =>
      match calculateBreakevenPrice d (some target) with
      | .error e => .error e
      | .ok step1 =>
        let breakeven_price_rounded := roundUpToNearest step1 50000
        let multiplier := findTierMultiplier d.po_seats_occupied_actual_pct
          rules.dynamic_pricing_tiers
        let step2 := step1 * multiplier
        let step3 := applyMarginOfSafety step2 rules.margin_of_safety
        let step4_rounded := roundToNearest step3 50000
        let step4 := enforcePriceBounds step4_rounded rules.min_price rules.max_price
        -- `(occ or 0) < actual` equals `occ < actual` on numbers
        let losing : Bool :=
          match actual with
          | some a => decide (d.po_seats_occupied_actual_pct < a)
          | none => false
        .ok { location := d.name
              recommended_price := step4
              latest_occupancy := d.po_seats_occupied_actual_pct
              target_breakeven_occupancy_pct := target
              actual_breakeven_occupancy_pct := actual
              is_losing_money := losing
              breakeven_price := breakeven_price_rounded
              base_price := step2
              price_with_margin := step3
              final_price := step4
              losing_money := some losing
              dynamic_multiplier := multiplier
              is_smart_target := is_smart }

/-! ## Parsing utilities (`src/utils/parsing.py`, `src/utils/error_handler.py`) -/

/-- A heterogeneous input value as the parsing utilities receive it:
a string, a number, or Python `None`. -/
inductive PyVal where
  | str (s : String)
  | num (q : ℚ)
  | pynone
deriving DecidableEq, Repr

/-- Whitespace as stripped by Python's `float()` / `str.strip()`. -/
def pyIsSpace (c : Char) : Bool :=
  c = ' ' ∨ c = '\t' ∨ c = '\n' ∨ c = '\r'

/-- Strip leading and trailing whitespace from a character list. -/
def pyStrip (l : List Char) : List Char :=
  ((l.dropWhile pyIsSpace).reverse.dropWhile pyIsSpace).reverse

/-- Decimal value of a digit list (most significant first). -/
def digitsVal (l : List Char) : ℕ :=
  l.foldl (fun a c => a * 10 + (c.toNat - 48)) 0

/-- Python's built-in `float()` on a string, restricted to optional
whitespace, an optional sign and a plain decimal literal (`"12"`,
`"12.5"`, `".5"`, `"12."`); scientific notation, `inf`/`nan` and digit
underscores are not modelled (no theorem below evaluates them).  Any
other string fails (`none` = `ValueError`). -/
def pyFloatOfChars (l : List Char) : Option ℚ :=
  let t := pyStrip l
  let signRest : ℚ × List Char :=
    match t with
    | '+' :: r => (1, r)
    | '-' :: r => (-1, r)
    | r => (1, r)
  let intPart := signRest.2.takeWhile Char.isDigit
  let rest := signRest.2.drop intPart.length
  match rest with
  | [] => if intPart.isEmpty then none else some (signRest.1 * digitsVal intPart)
  | '.' :: frac =>
      if frac.all Char.isDigit ∧ ¬(intPart.isEmpty ∧ frac.isEmpty) then
        some (signRest.1 *
          ((digitsVal intPart : ℚ) + (digitsVal frac : ℚ) / 10 ^ frac.length))
      else none
  | _ => none

/-- Models `float(str(v).replace(",", ""))` — the parse attempted inside
`parse_float` / `parse_int`: strings lose their commas; a number's
`str()` re-parses to itself; `str(None) = "None"` never parses. -/
def parseFloatInternal : PyVal → Option ℚ
  | .str s => pyFloatOfChars (s.toList.filter (fun c => c ≠ ','))
  | .num q => some q
  | .pynone => pyFloatOfChars "None".toList

/-- Truncation toward zero, as Python's `int(float_value)`. -/
def ratTrunc (q : ℚ) : ℤ := q.num / (q.den : ℤ)

/-- From `src/utils/parsing.py` — `parse_float`.  The function always builds
an `ErrorContext` when none is supplied, and
`src/utils/error_handler.py::safe_parse` re-raises a `ParsingException`
whenever a context is present — so a failed parse raises
(`Except.error`), it does not return the default. -/
def parse_float (v : PyVal) (absolute : Bool := false) : Except String ℚ :=
  match parseFloatInternal v with
  | some q => .ok (if absolute then |q| else q)
  | none => .error "ParsingException: float"

/-- From `src/utils/parsing.py` — `parse_int` (`int(float(str(v).replace(",", "")))`);
like `parse_float`, a failed parse raises through `safe_parse`. -/
def parse_int (v : PyVal) : Except String ℤ :=
  match parseFloatInternal v with
  | some q => .ok (ratTrunc q)
  | none => .error "ParsingException: integer"

/-- From `src/utils/parsing.py` — `parse_pct`: a string containing `"%"` has
the sign stripped and the numeric part taken as already on the 0–100
scale; otherwise `float(v)` is taken and multiplied by 100 when
`num < 1.0`; `float(None)` raises.  A failed parse raises through
`safe_parse` (context always present). -/
def parse_pct (v : PyVal) : Except String ℚ :=
  match v with
  | .str s =>
      if '%' ∈ s.toList then
        match pyFloatOfChars (pyStrip (s.toList.filter (fun c => c ≠ '%'))) with
        | some q => .ok q
        | none => .error "ParsingException: percentage"
      else
        match pyFloatOfChars s.toList with
        | some q => .ok (if q < 1 then q * 100 else q)
        | none => .error "ParsingException: percentage"
  | .num q => .ok (if q < 1 then q * 100 else q)
  | .pynone => .error "ParsingException: percentage"

/-! ## Expense selection (`src/pricing_pipeline.py`, lines 186–206) -/

/-- One monthly row of the merged input frame, as read by the expense
averaging step (the expense field already parsed to a number). -/
structure ExpenseRow where
  building_name : String
  year : ℤ
  month : ℤ
  exp_total_po_expense_amount : ℚ
deriving DecidableEq, Repr

/-- From `src/pricing_pipeline.py` lines 186–206: select the rows of the
location with `year == target_year` and
`month.isin([target_month - 2, target_month - 1, target_month])`; average
the absolute expense over them, falling back to the current row's
absolute expense when the selection is empty. -/
def avgExpense (rows : List ExpenseRow) (loc : String)
    (target_year target_month : ℤ) (current_exp : ℚ) : ℚ :=
  let sel := rows.filter (fun r =>
    r.building_name = loc ∧ r.year = target_year ∧
      (r.month = target_month - 2 ∨ r.month = target_month - 1 ∨
        r.month = target_month))
  if sel.isEmpty then |current_exp|
  else (sel.map (fun r => |r.exp_total_po_expense_amount|)).sum / (sel.length : ℚ)

/-- The expense selection as the claim words it (for comparison with
`avgExpense`): the up-to-3 most recent calendar months *strictly before*
the target month (year boundary crossed via a linear month index), with
the same empty fallback. -/
def avgExpenseClaim (rows : List ExpenseRow) (loc : String)
    (target_year target_month : ℤ) (current_exp : ℚ) : ℚ :=
  let sel := rows.filter (fun r =>
    r.building_name = loc ∧
      12 * r.year + r.month < 12 * target_year + target_month ∧
      12 * target_year + target_month - 3 ≤ 12 * r.year + r.month)
  if sel.isEmpty then |current_exp|
  else (sel.map (fun r => |r.exp_total_po_expense_amount|)).sum / (sel.length : ℚ)

/-! ## Concrete inputs used by the claims' examples and witnesses -/

/-- The configuration of spec Example 1: one dynamic tier `(0, 50] → 0.8`,
global `margin_of_safety = 0.5`, one location with a static target of 50
and smart targets off, no price bounds. -/
def exampleCfg : Config :=
  { margin_of_safety := some (1/2)
    dynamic_pricing_tiers := [⟨0, 50, 4/5⟩]
    locations := [("L", { use_smart_target := some false,
                          target_breakeven_occupancy := some 50 })] }

/-- The location data of spec Example 1: expense 1,000,000, 10 seats,
40% occupancy, no sold price. -/
def exampleData : LocationData :=
  { name := "L"
    exp_total_po_expense_amount := 1000000
    avg_exp_total_po_expense_amount := 1000000
    po_seats_occupied_actual_pct := 40
    total_po_seats := 10 }

/-- The result of spec Example 1. -/
def exampleResult : PricingResult :=
  { location := "L", recommended_price := 250000, latest_occupancy := 40,
    target_breakeven_occupancy_pct := 50, actual_breakeven_occupancy_pct := none,
    is_losing_money := false, breakeven_price := 200000, base_price := 160000,
    price_with_margin := 240000, final_price := 250000, losing_money := some false,
    dynamic_multiplier := 4/5, is_smart_target := false }

/-- Variant of `exampleData` with a known sold price of 50,000 per seat: the actual
breakeven occupancy is `1000000 / (50000 * 10) * 100 = 200%`, so the
location is losing money at 40% occupancy. -/
def soldData : LocationData :=
  { exampleData with sold_price_per_po_seat_actual := some 50000 }

/-- The pricing result for `soldData`. -/
def soldResult : PricingResult :=
  { exampleResult with
      actual_breakeven_occupancy_pct := some 200
      is_losing_money := true
      losing_money := some true }

/-- A location entry with every key but `use_smart_target` (the input of
the repository's `test_build_rules_without_smart_target_setting`). -/
def missingFlagCfg : Config :=
  { margin_of_safety := some (1/2)
    dynamic_pricing_tiers := [⟨0, 100, 1⟩]
    locations := [("T", { min_price := some 1000000, max_price := some 3000000,
                          target_breakeven_occupancy := some 70 })] }

/-- Location data violating the claimed `total_seats > 0` precondition
with a *negative* (not zero) seat count. -/
def negSeatsData : LocationData :=
  { name := "X"
    exp_total_po_expense_amount := 100
    avg_exp_total_po_expense_amount := 100
    po_seats_occupied_actual_pct := 0
    total_po_seats := -1 }

/-- Rows for the expense-selection counterexample: the target month
(May 2024, expense 100) and the month before it (April 2024, expense
300) both present. -/
def mayAprilRows : List ExpenseRow :=
  [⟨"L", 2024, 5, 100⟩, ⟨"L", 2024, 4, 300⟩]

/-- A configuration with smart targets enabled for location "S". -/
def smartCfg : Config :=
  { margin_of_safety := some (1/2)
    dynamic_pricing_tiers := []
    locations := [("S", { use_smart_target := some true })] }

end PricingEngine

namespace PricingEngine

/-! ## Helper lemmas -/

/-- Fields of a successfully built rule set come straight from the
location entry and the global tier list. -/
theorem build_rules_ok_fields {loc : String} {cfg : Config} {rules : PricingRules}
    (h : build_rules loc cfg = .ok rules) :
    rules.min_price = (lookupLoc cfg loc).min_price ∧
    rules.max_price = (lookupLoc cfg loc).max_price ∧
    rules.dynamic_pricing_tiers = cfg.dynamic_pricing_tiers := by
  unfold build_rules at h
  dsimp only at h
  cases hu : (lookupLoc cfg loc).use_smart_target with
  | none => rw [hu] at h; exact Except.noConfusion h
  | some ust =>
    rw [hu] at h
    cases ht : (lookupLoc cfg loc).target_breakeven_occupancy with
    | none =>
      rw [ht] at h
      simp only [Except.ok.injEq] at h
      subst h
      exact ⟨rfl, rfl, rfl⟩
    | some t =>
      rw [ht] at h
      by_cases hc : ust = true ∧ t ≤ 0
      · simp only [if_pos hc] at h
        exact Except.noConfusion h
      · simp only [if_neg hc, Except.ok.injEq] at h
        subst h
        exact ⟨rfl, rfl, rfl⟩

/-- Inversion of a successful `calculate_pricing` run: the three
fallible stages succeeded and every result field is the corresponding
stage expression. -/
theorem calculate_pricing_ok_inv {cfg : Config} {d : LocationData} {res : PricingResult}
    (h : calculate_pricing cfg d = .ok res) :
    ∃ rules target is_smart step1,
      build_rules d.name cfg = .ok rules ∧
      get_target_breakeven_occupancy d.name cfg (actualBreakevenPct d)
        (some d.po_seats_occupied_actual_pct) = .ok (target, is_smart) ∧
      calculateBreakevenPrice d (some target) = .ok step1 ∧
      res.breakeven_price = roundUpToNearest step1 50000 ∧
      res.base_price = step1 * findTierMultiplier d.po_seats_occupied_actual_pct
        rules.dynamic_pricing_tiers ∧
      res.price_with_margin = applyMarginOfSafety res.base_price rules.margin_of_safety ∧
      res.final_price = enforcePriceBounds (roundToNearest res.price_with_margin 50000)
        rules.min_price rules.max_price ∧
      res.actual_breakeven_occupancy_pct = actualBreakevenPct d ∧
      res.losing_money = some (match actualBreakevenPct d with
        | some a => decide (d.po_seats_occupied_actual_pct < a)
        | none => false) := by
  unfold calculate_pricing at h
  dsimp only at h
  cases hb : build_rules d.name cfg with
  | error e => rw [hb] at h; exact Except.noConfusion h
  | ok rules =>
    rw [hb] at h
    dsimp only at h
    cases ht : get_target_breakeven_occupancy d.name cfg (actualBreakevenPct d)
        (some d.po_seats_occupied_actual_pct) with
    | error e => rw [ht] at h; exact Except.noConfusion h
    | ok p =>
      obtain ⟨target, is_smart⟩ := p
      rw [ht] at h
      dsimp only at h
      cases hc : calculateBreakevenPrice d (some target) with
      | error e => rw [hc] at h; exact Except.noConfusion h
      | ok step1 =>
        rw [hc] at h
        dsimp only at h
        simp only [Except.ok.injEq] at h
        subst h
        exact ⟨rules, target, is_smart, step1, rfl, rfl, hc, rfl, rfl, rfl, rfl, rfl, rfl⟩

/-- The ceiling-rounder always equals `ceil(q / n) * n`. -/
theorem roundUpToNearest_eq_ceil (q : ℚ) {n : ℤ} (hn : 0 < n) :
    roundUpToNearest q n = (⌈q / n⌉ : ℚ) * n := by
  unfold roundUpToNearest
  split_ifs with h
  · have hn0 : (n : ℚ) ≠ 0 := Int.cast_ne_zero.mpr (ne_of_gt hn)
    have hq : q = (⌊q / n⌋ : ℚ) * n := by linarith [h]
    have hdiv : q / n = (⌊q / n⌋ : ℚ) := by
      rw [hq]
      field_simp
    rw [hdiv]
    rw [Int.ceil_intCast]
    exact hq
  · rfl

/-- The ceiling-rounder never goes below its input. -/
theorem roundUpToNearest_ge (q : ℚ) {n : ℤ} (hn : 0 < n) :
    q ≤ roundUpToNearest q n := by
  rw [roundUpToNearest_eq_ceil q hn]
  have hn0 : (0 : ℚ) < (n : ℚ) := by exact_mod_cast hn
  have hle := Int.le_ceil (q / n)
  calc q = q / n * n := by field_simp
    _ ≤ (⌈q / n⌉ : ℚ) * n := mul_le_mul_of_nonneg_right hle (le_of_lt hn0)

/-- The ceiling-rounder returns an integer multiple of `n`. -/
theorem roundUpToNearest_multiple (q : ℚ) {n : ℤ} (hn : 0 < n) :
    ∃ k : ℤ, roundUpToNearest q n = (k : ℚ) * n :=
  ⟨⌈q / n⌉, roundUpToNearest_eq_ceil q hn⟩

/-- The nearest-rounder returns an integer multiple of `n`. -/
theorem roundToNearest_multiple (q : ℚ) (n : ℤ) :
    ∃ k : ℤ, roundToNearest q n = (k : ℚ) * n :=
  ⟨pyRound (q / n), rfl⟩

/-- Bound enforcement returns the input price, the lower bound, or the
upper bound. -/
theorem enforcePriceBounds_cases (p : ℚ) (mn mx : Option ℚ) :
    enforcePriceBounds p mn mx = p ∨
    mn = some (enforcePriceBounds p mn mx) ∨
    mx = some (enforcePriceBounds p mn mx) := by
  unfold enforcePriceBounds
  cases mn with
  | some a =>
    by_cases h1 : p < a
    · simp only [if_pos h1]
      right; left; trivial
    · simp only [if_neg h1]
      cases mx with
      | some b =>
        by_cases h2 : p > b
        · simp only [if_pos h2]; right; right; trivial
        · simp only [if_neg h2]; left; trivial
      | none => left; trivial
  | none =>
    cases mx with
    | some b =>
      by_cases h2 : p > b
      · simp only [if_pos h2]; right; right; trivial
      · simp only [if_neg h2]; left; trivial
    | none => left; trivial

/-- Every branch of the smart-target step function is below 1. -/
theorem improvementMultiplier_lt_one (a c : ℚ) : improvementMultiplier a c < 1 := by
  simp only [improvementMultiplier]
  split_ifs <;> norm_num

/-- Evaluation of the pipeline on spec Example 1. -/
theorem example_pipeline_eval :
    calculate_pricing exampleCfg exampleData = Except.ok exampleResult := by
  have h1 : build_rules "L" exampleCfg =
      .ok ⟨none, none, 1/2, [⟨0, 50, 4/5⟩], false⟩ := by
    simp [build_rules, lookupLoc, exampleCfg, List.find?]
  have h2 : actualBreakevenPct exampleData = none := by
    simp [actualBreakevenPct, exampleData]
  have h3 : get_target_breakeven_occupancy "L" exampleCfg none (some 40) =
      .ok (50, false) := by
    simp [get_target_breakeven_occupancy, lookupLoc, exampleCfg, List.find?]
  have h4 : calculateBreakevenPrice exampleData (some 50) = .ok 200000 := by
    simp only [calculateBreakevenPrice, pct_to_decimal, exampleData]
    norm_num
    exact fun h => Option.noConfusion h
  have h5 : roundUpToNearest 200000 50000 = 200000 := by
    simp only [roundUpToNearest]
    norm_num
  have h6 : findTierMultiplier 40 [⟨0, 50, 4/5⟩] = 4/5 := by
    norm_num [findTierMultiplier]
  have h7 : roundToNearest 240000 50000 = 250000 := by
    have hfl : ⌊(240000 : ℚ) / 50000⌋ = 4 := by norm_num
    simp only [roundToNearest, pyRound, hfl]
    norm_num
  simp only [calculate_pricing, show exampleData.name = "L" from rfl, h1, h2, h3, h4,
    show exampleData.po_seats_occupied_actual_pct = (40 : ℚ) from rfl, h5, h6,
    applyMarginOfSafety, enforcePriceBounds]
  norm_num [h7, exampleResult]

/-- Evaluation of the pipeline on Example 1 with a known sold price. -/
theorem sold_pipeline_eval :
    calculate_pricing exampleCfg soldData = Except.ok soldResult := by
  have h1 : build_rules "L" exampleCfg =
      .ok ⟨none, none, 1/2, [⟨0, 50, 4/5⟩], false⟩ := by
    simp [build_rules, lookupLoc, exampleCfg, List.find?]
  have h2 : actualBreakevenPct soldData = some 200 := by
    simp only [actualBreakevenPct, soldData, exampleData]
    norm_num
  have h3 : get_target_breakeven_occupancy "L" exampleCfg (some 200) (some 40) =
      .ok (50, false) := by
    simp [get_target_breakeven_occupancy, lookupLoc, exampleCfg, List.find?]
  have h4 : calculateBreakevenPrice soldData (some 50) = .ok 200000 := by
    simp only [calculateBreakevenPrice, pct_to_decimal, soldData, exampleData]
    norm_num
    exact fun h => Option.noConfusion h
  have h5 : roundUpToNearest 200000 50000 = 200000 := by
    simp only [roundUpToNearest]
    norm_num
  have h6 : findTierMultiplier 40 [⟨0, 50, 4/5⟩] = 4/5 := by
    norm_num [findTierMultiplier]
  have h7 : roundToNearest 240000 50000 = 250000 := by
    have hfl : ⌊(240000 : ℚ) / 50000⌋ = 4 := by norm_num
    simp only [roundToNearest, pyRound, hfl]
    norm_num
  simp only [calculate_pricing, show soldData.name = "L" from rfl, h1, h2, h3, h4,
    show soldData.po_seats_occupied_actual_pct = (40 : ℚ) from rfl, h5, h6,
    applyMarginOfSafety, enforcePriceBounds]
  norm_num [h7, soldResult, exampleResult]

/-! ## Claim theorems -/

/-- C1: on spec Example 1 (expense 1,000,000, 10 seats, static target
50%, occupancy 40%, single tier (0,50] → 0.8, margin 0.5, no bounds)
the four stages run in order and produce: raw breakeven 200,000, base
price 160,000, price with margin 240,000, final recommended price
250,000 (rounded to the nearest 50,000, no clamping). -/
theorem spec_c1_example_pipeline :
    calculateBreakevenPrice exampleData (some 50) = .ok 200000 ∧
    calculate_pricing exampleCfg exampleData = Except.ok exampleResult ∧
    exampleResult.base_price = 160000 ∧
    exampleResult.price_with_margin = 240000 ∧
    exampleResult.final_price = 250000 ∧
    exampleResult.recommended_price = 250000 := by
  refine ⟨?_, example_pipeline_eval, rfl, rfl, rfl, rfl⟩
  simp only [calculateBreakevenPrice, pct_to_decimal, exampleData]
  norm_num
  exact fun h => Option.noConfusion h

/-- C2: in stage 4 the price with margin is rounded to the nearest
50,000 first and clamped to the (optional) bounds only afterwards, so
the final price is a multiple of 50,000 unless it equals the configured
`min_price` or `max_price`. -/
theorem spec_c2_round_then_clamp (cfg : Config) (d : LocationData)
    (res : PricingResult) (h : calculate_pricing cfg d = .ok res) :
    res.final_price = enforcePriceBounds (roundToNearest res.price_with_margin 50000)
      (lookupLoc cfg d.name).min_price (lookupLoc cfg d.name).max_price ∧
    ((∃ k : ℤ, res.final_price = (k : ℚ) * 50000) ∨
      (lookupLoc cfg d.name).min_price = some res.final_price ∨
      (lookupLoc cfg d.name).max_price = some res.final_price) := by
  obtain ⟨rules, target, is_smart, step1, hb, ht, hc, hbp, hbase, hpm, hfp, hact, hlm⟩ :=
    calculate_pricing_ok_inv h
  obtain ⟨hmn, hmx, -⟩ := build_rules_ok_fields hb
  rw [hmn, hmx] at hfp
  refine ⟨hfp, ?_⟩
  rcases enforcePriceBounds_cases (roundToNearest res.price_with_margin 50000)
      (lookupLoc cfg d.name).min_price (lookupLoc cfg d.name).max_price with
      hcase | hcase | hcase
  · left
    obtain ⟨k, hk⟩ := roundToNearest_multiple res.price_with_margin 50000
    exact ⟨k, by rw [hfp, hcase, hk]; norm_num⟩
  · right; left; rw [hfp]; exact hcase
  · right; right; rw [hfp]; exact hcase

/-- Witness for C2 at the Example 1 input. -/
theorem spec_c2_witness :
    exampleResult.final_price =
      enforcePriceBounds (roundToNearest exampleResult.price_with_margin 50000)
        (lookupLoc exampleCfg exampleData.name).min_price
        (lookupLoc exampleCfg exampleData.name).max_price ∧
    ((∃ k : ℤ, exampleResult.final_price = (k : ℚ) * 50000) ∨
      (lookupLoc exampleCfg exampleData.name).min_price = some exampleResult.final_price ∨
      (lookupLoc exampleCfg exampleData.name).max_price = some exampleResult.final_price) :=
  spec_c2_round_then_clamp exampleCfg exampleData exampleResult example_pipeline_eval

/-- C3: the `breakeven_price` (bottom price) field equals
`ceil(raw / 50000) * 50000` where `raw` is the unrounded stage-1
breakeven value, hence is at least the raw value and a multiple of
50,000. -/
theorem spec_c3_bottom_price_ceiling (cfg : Config) (d : LocationData)
    (res : PricingResult) (h : calculate_pricing cfg d = .ok res) :
    ∃ raw target is_smart,
      get_target_breakeven_occupancy d.name cfg (actualBreakevenPct d)
        (some d.po_seats_occupied_actual_pct) = .ok (target, is_smart) ∧
      calculateBreakevenPrice d (some target) = .ok raw ∧
      res.breakeven_price = (⌈raw / 50000⌉ : ℚ) * 50000 ∧
      raw ≤ res.breakeven_price ∧
      ∃ k : ℤ, res.breakeven_price = (k : ℚ) * 50000 := by
  obtain ⟨rules, target, is_smart, step1, hb, ht, hc, hbp, -, -, -, -, -⟩ :=
    calculate_pricing_ok_inv h
  have h50 : (0 : ℤ) < 50000 := by norm_num
  refine ⟨step1, target, is_smart, ht, hc, ?_, ?_, ?_⟩
  · rw [hbp]; exact roundUpToNearest_eq_ceil step1 h50
  · rw [hbp]; exact roundUpToNearest_ge step1 h50
  · rw [hbp]; exact roundUpToNearest_multiple step1 h50

/-- Witness for C3 at the Example 1 input. -/
theorem spec_c3_witness :
    ∃ raw target is_smart,
      get_target_breakeven_occupancy exampleData.name exampleCfg
        (actualBreakevenPct exampleData)
        (some exampleData.po_seats_occupied_actual_pct) = .ok (target, is_smart) ∧
      calculateBreakevenPrice exampleData (some target) = .ok raw ∧
      exampleResult.breakeven_price = (⌈raw / 50000⌉ : ℚ) * 50000 ∧
      raw ≤ exampleResult.breakeven_price ∧
      ∃ k : ℤ, exampleResult.breakeven_price = (k : ℚ) * 50000 :=
  spec_c3_bottom_price_ceiling exampleCfg exampleData exampleResult example_pipeline_eval

/-- C4 counterexample: with `total_po_seats = -1` the claimed
precondition `total_seats > 0` is violated, yet the stage-1 computation
does not raise — it returns `-200`. -/
theorem spec_c4_counterexample :
    negSeatsData.total_po_seats ≤ 0 ∧
    calculateBreakevenPrice negSeatsData (some 50) = .ok (-200) := by
  constructor
  · norm_num [negSeatsData]
  · simp only [calculateBreakevenPrice, pct_to_decimal, negSeatsData]
    norm_num
    exact fun h => Option.noConfusion h

/-- C4 (amended): the stage-1 computation raises exactly when
`total_po_seats = 0` (not when merely non-positive) or the target is
falsy (null or zero); otherwise it returns
`avg_expense / (total_seats * (target / 100))`. -/
theorem spec_c4_precondition_error (d : LocationData) (t : Option ℚ) :
    ((∃ e, calculateBreakevenPrice d t = .error e) ↔
      (d.total_po_seats = 0 ∨ t = none ∨ t = some 0)) ∧
    (∀ q : ℚ, t = some q → d.total_po_seats ≠ 0 → q ≠ 0 →
      calculateBreakevenPrice d t =
        .ok (d.avg_exp_total_po_expense_amount /
          ((d.total_po_seats : ℚ) * (q / 100)))) := by
  constructor
  · unfold calculateBreakevenPrice
    split_ifs with hcond
    · simp only [hcond, iff_true]
      exact ⟨_, rfl⟩
    · simp only [hcond, iff_false]
      rintro ⟨e, he⟩
      exact he
  · intro q hq hseats hq0
    subst hq
    unfold calculateBreakevenPrice pct_to_decimal
    rw [if_neg]
    · simp
    · push_neg
      exact ⟨hseats, by simp, by simp [hq0]⟩

/-- Witness for the amended C4 at the Example 1 input. -/
theorem spec_c4_witness :
    calculateBreakevenPrice exampleData (some 50) =
      .ok (exampleData.avg_exp_total_po_expense_amount /
        ((exampleData.total_po_seats : ℚ) * (50 / 100))) :=
  (spec_c4_precondition_error exampleData (some 50)).2 50 rfl
    (by norm_num [exampleData]) (by norm_num)

/-- C5: with smart targeting applied (flag enabled, actual breakeven
and current occupancy both supplied), the returned target is
`actual * m` with the claimed inclusive step multipliers, and it is
strictly below the actual breakeven whenever that is positive. -/
theorem spec_c5_smart_target (cfg : Config) (loc : String) (a c : ℚ)
    (hflag : (lookupLoc cfg loc).use_smart_target = some true) :
    get_target_breakeven_occupancy loc cfg (some a) (some c) =
      .ok (a * improvementMultiplier a c, true) ∧
    improvementMultiplier a c =
      (if c ≥ a then
        if a ≤ 50 then 97/100 else if a ≤ 70 then 95/100 else 93/100
      else
        if a - c ≤ 15 then 97/100 else if a - c ≤ 25 then 94/100 else 9/10) ∧
    (0 < a → a * improvementMultiplier a c < a) := by
  refine ⟨?_, rfl, ?_⟩
  · simp only [get_target_breakeven_occupancy, hflag, if_true]
  · intro ha
    calc a * improvementMultiplier a c < a * 1 :=
          mul_lt_mul_of_pos_left (improvementMultiplier_lt_one a c) ha
      _ = a := mul_one a

/-- Witness for C5: spec Example 3 (actual 80, occupancy 85, profitable,
multiplier 0.93, smart target 74.4 < 80). -/
theorem spec_c5_witness :
    get_target_breakeven_occupancy "S" smartCfg (some 80) (some 85) =
      .ok (80 * improvementMultiplier 80 85, true) ∧
    80 * improvementMultiplier 80 85 < 80 ∧
    (80 : ℚ) * improvementMultiplier 80 85 = 372/5 := by
  have h := spec_c5_smart_target smartCfg "S" 80 85
    (by simp [lookupLoc, smartCfg, List.find?])
  refine ⟨h.1, h.2.2 (by norm_num), ?_⟩
  rw [h.2.1]
  norm_num

/-- C6: with a known positive sold price and positive seat count the
result carries `actual_breakeven_pct = avg_expense / (sold * seats) * 100`
and `losing_money = (occupancy < actual_breakeven_pct)`; with the sold
price unknown, `losing_money` is reported as `false`, not as unknown. -/
theorem spec_c6_losing_money (cfg : Config) (d : LocationData) (res : PricingResult)
    (h : calculate_pricing cfg d = .ok res) :
    (∀ s : ℚ, d.sold_price_per_po_seat_actual = some s → 0 < s → 0 < d.total_po_seats →
      res.actual_breakeven_occupancy_pct =
        some (d.avg_exp_total_po_expense_amount / (s * (d.total_po_seats : ℚ)) * 100) ∧
      res.losing_money = some (decide (d.po_seats_occupied_actual_pct <
        d.avg_exp_total_po_expense_amount / (s * (d.total_po_seats : ℚ)) * 100))) ∧
    (d.sold_price_per_po_seat_actual = none → res.losing_money = some false) := by
  obtain ⟨rules, target, is_smart, step1, hb, ht, hc, hbp, hbase, hpm, hfp, hact, hlm⟩ :=
    calculate_pricing_ok_inv h
  constructor
  · intro s hs hspos hseats
    have hab : actualBreakevenPct d =
        some (d.avg_exp_total_po_expense_amount / (s * (d.total_po_seats : ℚ)) * 100) := by
      simp [actualBreakevenPct, hs, ne_of_gt hspos, hspos, hseats,
        Int.ne_of_gt hseats]
    rw [hab] at hact hlm
    exact ⟨hact, hlm⟩
  · intro hs
    have hab : actualBreakevenPct d = none := by
      simp [actualBreakevenPct, hs]
    rw [hab] at hlm
    exact hlm

/-- Witness for C6: the sold-price variant reports
`actual_breakeven = 200%` and `losing_money = true`; the Example 1 data
without a sold price reports `losing_money = false`. -/
theorem spec_c6_witness :
    (soldResult.actual_breakeven_occupancy_pct =
      some (soldData.avg_exp_total_po_expense_amount /
        (50000 * (soldData.total_po_seats : ℚ)) * 100) ∧
     soldResult.losing_money = some (decide (soldData.po_seats_occupied_actual_pct <
      soldData.avg_exp_total_po_expense_amount /
        (50000 * (soldData.total_po_seats : ℚ)) * 100))) ∧
    exampleResult.losing_money = some false :=
  ⟨(spec_c6_losing_money exampleCfg soldData soldResult sold_pipeline_eval).1 50000
      rfl (by norm_num) (by norm_num [soldData, exampleData]),
   (spec_c6_losing_money exampleCfg exampleData exampleResult example_pipeline_eval).2 rfl⟩

end PricingEngine

namespace PricingEngine

/-- C7: the parsing utilities raise on unparseable input instead of
returning the caller-supplied default: `parse_float` / `parse_int` /
`parse_pct` always construct an `ErrorContext`, and `safe_parse`
re-raises a `ParsingException` whenever a context is present. -/
theorem spec_c7_parse_raises :
    parse_float (.str "garbage") = .error "ParsingException: float" ∧
    parse_int (.str "invalid") = .error "ParsingException: integer" ∧
    parse_float .pynone = .error "ParsingException: float" ∧
    parse_pct .pynone = .error "ParsingException: percentage" :=
  ⟨rfl, rfl, rfl, rfl⟩

/-- C8 counterexample: at the numeric input `-2.0` (absolute value at
least 1, so the claim requires it to pass through unchanged) `parse_pct`
returns `-200`, because the code tests `num < 1.0`, not
`abs(num) < 1.0`. -/
theorem spec_c8_counterexample :
    parse_pct (.num (-2)) = .ok (-200) ∧ ((-200 : ℚ) ≠ (-2 : ℚ)) := by
  constructor
  · simp only [parse_pct]
    norm_num
  · norm_num

/-- C8 (amended): a string containing a percent sign parses to its
numeric part as-is; any other successfully parsed value is multiplied
by 100 exactly when the signed number is less than 1.0 (not when its
absolute value is), and passed through unchanged otherwise. -/
theorem spec_c8_pct_normalization :
    (∀ q : ℚ, parse_pct (.num q) = .ok (if q < 1 then q * 100 else q)) ∧
    (∀ s : String, ∀ q : ℚ, '%' ∈ s.toList →
      pyFloatOfChars (pyStrip (s.toList.filter (fun c => c ≠ '%'))) = some q →
      parse_pct (.str s) = .ok q) ∧
    (∀ s : String, ∀ q : ℚ, '%' ∉ s.toList → pyFloatOfChars s.toList = some q →
      parse_pct (.str s) = .ok (if q < 1 then q * 100 else q)) ∧
    parse_pct (.str "75%") = .ok 75 := by
  refine ⟨fun q => rfl, ?_, ?_, ?_⟩
  · intro s q hmem hparse
    simp only [parse_pct, if_pos hmem, hparse]
  · intro s q hmem hparse
    simp only [parse_pct, if_neg hmem, hparse]
  · have h : parse_pct (.str "75%") = .ok ((1 : ℚ) * ((75 : ℕ) : ℚ)) := by rfl
    rw [h]
    norm_num

/-- Witness for the amended C8: the spec examples 75% → 75, 0.75 → 75,
70 → 70. -/
theorem spec_c8_witness :
    parse_pct (.num (3/4)) = .ok 75 ∧
    parse_pct (.num 70) = .ok 70 ∧
    parse_pct (.str "75%") = .ok 75 := by
  refine ⟨?_, ?_, spec_c8_pct_normalization.2.2.2⟩
  · rw [spec_c8_pct_normalization.1 (3/4)]
    norm_num
  · rw [spec_c8_pct_normalization.1 70]
    norm_num

/-- C9: on a location entry lacking `use_smart_target`, the strict
validator raises naming the location — but so does `build_rules`,
instead of defaulting the flag to false as the claim (and the
repository's own test) expects. -/
theorem spec_c9_missing_flag :
    validate_smart_target_configuration missingFlagCfg =
      .error "Location 'T' must have 'use_smart_target' configured" ∧
    build_rules "T" missingFlagCfg =
      .error "Location 'T' must have 'use_smart_target' configured" ∧
    (∀ rules, build_rules "T" missingFlagCfg ≠ .ok rules) := by
  refine ⟨rfl, rfl, ?_⟩
  intro rules h
  rw [show build_rules "T" missingFlagCfg =
    .error "Location 'T' must have 'use_smart_target' configured" from rfl] at h
  exact Except.noConfusion h

/-- C10 counterexample: with rows for the target month (May 2024,
expense 100) and the preceding month (April 2024, expense 300), the
code averages both months — 200 — while the claimed
strictly-before-the-target-month selection would give 300. -/
theorem spec_c10_counterexample :
    avgExpense mayAprilRows "L" 2024 5 100 = 200 ∧
    avgExpenseClaim mayAprilRows "L" 2024 5 100 = 300 ∧
    (200 : ℚ) ≠ (300 : ℚ) := by
  refine ⟨?_, ?_, by norm_num⟩
  · simp only [avgExpense, mayAprilRows]
    norm_num [List.filter]
  · simp only [avgExpenseClaim, mayAprilRows]
    norm_num [List.filter]

/-- C10 (amended): the expense figure is the average of the absolute
expense values over the rows of the location whose year equals the
target year and whose month lies between `target_month - 2` and
`target_month` inclusive — the target month itself included, with no
wrap into the previous year — falling back to the current row's
absolute expense when no such row exists. -/
theorem spec_c10_expense_window (rows : List ExpenseRow) (loc : String)
    (ty tm : ℤ) (cur : ℚ) :
    avgExpense rows loc ty tm cur =
      (let sel := rows.filter (fun r => r.building_name = loc ∧ r.year = ty ∧
         tm - 2 ≤ r.month ∧ r.month ≤ tm)
       if sel.isEmpty then |cur|
       else (sel.map (fun r => |r.exp_total_po_expense_amount|)).sum /
         (sel.length : ℚ)) := by
  have hfe : rows.filter (fun r => decide (r.building_name = loc ∧ r.year = ty ∧
      (r.month = tm - 2 ∨ r.month = tm - 1 ∨ r.month = tm))) =
      rows.filter (fun r => decide (r.building_name = loc ∧ r.year = ty ∧
        tm - 2 ≤ r.month ∧ r.month ≤ tm)) := by
    apply List.filter_congr
    intro r _
    simp only [decide_eq_decide]
    constructor
    · rintro ⟨h1, h2, h3⟩
      exact ⟨h1, h2, by omega, by omega⟩
    · rintro ⟨h1, h2, h3, h4⟩
      exact ⟨h1, h2, by omega⟩
  unfold avgExpense
  dsimp only
  rw [hfe]

end PricingEngine
